import Mathlib

/-!
Shallow embedding of the terraform-provider-temporal sources
(src/internal/provider/provider.go and src/internal/provider/namespace_resource.go)
for checking the repository specification.  The Go code is translated
definition by definition: the framework value type `types.String` becomes
`TFString`, diagnostics become an explicit list, and each handler method
becomes a pure function returning the diagnostics it appended, the state it
wrote (if any), and the number of remote (HTTP/gRPC data-plane) calls it
issued, which a reader can check against the source: none of the CRUD
methods in namespace_resource.go performs a remote call (the client calls
are commented out in the source).
-/

/-- Terraform framework string value (`types.String`): null, unknown
(not yet resolved), or a known string value. -/
inductive TFString where
  | null
  | unknown
  | value (s : String)
deriving DecidableEq, Repr

/-- Mirrors `types.String.IsUnknown()`. -/
def TFString.isUnknown : TFString → Bool
  | .unknown => true
  | _ => false

/-- Mirrors `types.String.IsNull()`. -/
def TFString.isNull : TFString → Bool
  | .null => true
  | _ => false

/-- Mirrors `types.String.ValueString()`: the known value, `""` otherwise. -/
def TFString.valueString : TFString → String
  | .value s => s
  | _ => ""

/-- A framework diagnostic: either attribute-scoped (`AddAttributeError`,
carrying the attribute path) or resource/provider scoped (`AddError`). -/
inductive Diagnostic where
  | attributeError (attrPath summary detail : String)
  | error (summary detail : String)
deriving DecidableEq, Repr

/-- Mirrors `temporalProviderModel` (provider.go lines 34-37). -/
structure temporalProviderModel where
  host : TFString
  port : TFString
deriving DecidableEq, Repr

/-- The process environment as read by `os.Getenv` in Configure:
`TEMPORAL_HOST` and `TEMPORAL_PORT` (`""` when unset, as in Go). -/
structure Env where
  temporalHost : String
  temporalPort : String
deriving DecidableEq, Repr

/-- The diagnostic added at provider.go lines 76-81 when `host` is unknown. -/
def unknownHostDiag : Diagnostic :=
  Diagnostic.attributeError "host" "Unknown Tmeporal Frontend Host"
    ("The provider cannot create the Temporal API client as there is an unknown configuration value for the Temporal API host. " ++
      "Either target apply the source of the value first, set the value statically in the configuration, or use the TEMPORAL_HOST environment variable.")

/-- The diagnostic added at provider.go lines 85-90 when `port` is unknown. -/
def unknownPortDiag : Diagnostic :=
  Diagnostic.attributeError "port" "Unknown Temporal Frontend Port"
    ("The provider cannot create the Temporal API client as there is an unknown configuration value for the Temporal API port. " ++
      "Either target apply the source of the value first, set the value statically in the configuration, or use the TEMPORAL_PORT environment variable.")

/-- The diagnostic added at provider.go lines 113-119 when the resolved host
is empty. -/
def missingHostDiag : Diagnostic :=
  Diagnostic.attributeError "host" "Missing Temporal Frontend Host"
    ("The provider cannot create the Temporal API client as there is a missing or empty value for the Temporal Frontend host. " ++
      "Set the host value in the configuration or use the TEMPORAL_HOST environment variable. " ++
      "If either is already set, ensure the value is not empty.")

/-- The diagnostic added at provider.go lines 123-129 when the resolved port
is empty (the detail text says `username`, verbatim from the source). -/
def missingPortDiag : Diagnostic :=
  Diagnostic.attributeError "port" "Missing Temporal Frontend Port"
    ("The provider cannot create the Temporal API client as there is a missing or empty value for the Temporal Frontend port. " ++
      "Set the username value in the configuration or use the TEMPORAL_PORT environment variable. " ++
      "If either is already set, ensure the value is not empty.")

/-- Result of `TemporalProvider.Configure`: the diagnostics appended, the
local `host`/`port` variables as computed by the function (`""` when the
early unknown-value return fires before they are assigned), and whether
control reached the `grpc.Dial` call that creates the shared client. -/
structure ProviderConfigureResult where
  diagnostics : List Diagnostic
  resolvedHost : String
  resolvedPort : String
  dialed : Bool
deriving DecidableEq, Repr

/-- Mirrors `TemporalProvider.Configure` (provider.go lines 61-162).
Unknown host/port each append an attribute-scoped diagnostic and force an
early return before any resolution or dialing.  Otherwise `host`/`port`
default to the environment variables and are overridden by non-null
configuration values; an empty resolved value appends an attribute-scoped
missing-value diagnostic, and any diagnostic returns before `grpc.Dial`.
The non-blocking `grpc.Dial` with valid static options is modelled as
succeeding (its error branch at lines 145-153 is unreachable without
malformed dial options). -/
def TemporalProvider.configure (env : Env) (config : temporalProviderModel) :
    ProviderConfigureResult :=
  let unknownDiags : List Diagnostic :=
    (if config.host.isUnknown then [unknownHostDiag] else []) ++
      (if config.port.isUnknown then [unknownPortDiag] else [])
  if unknownDiags.isEmpty then
    let host := if config.host.isNull then env.temporalHost else config.host.valueString
    let port := if config.port.isNull then env.temporalPort else config.port.valueString
    let missingDiags : List Diagnostic :=
      (if host = "" then [missingHostDiag] else []) ++
        (if port = "" then [missingPortDiag] else [])
    if missingDiags.isEmpty then
      { diagnostics := [], resolvedHost := host, resolvedPort := port, dialed := true }
    else
      { diagnostics := missingDiags, resolvedHost := host, resolvedPort := port, dialed := false }
  else
    { diagnostics := unknownDiags, resolvedHost := "", resolvedPort := "", dialed := false }

/-- Modelled from the spec: the declaration of `ExampleResourceModel`, the
model type used by the CRUD methods of namespace_resource.go, is not under
src/ (only its uses are).  It is given the scaffold shape of
`NamespaceResourceModel` (namespace_resource.go lines 30-34), declared in
the same file with the standard scaffolding fields: note it has no `name`,
`description` or computed namespace fields at all, only the example
attributes and `id`. -/
structure ExampleResourceModel where
  configurableAttribute : TFString
  defaulted : TFString
  id : TFString
deriving DecidableEq, Repr

/-- Result of a CRUD handler: diagnostics appended, the model written to
`resp.State` via `Set` (`none` when `Set` was never called), and the number
of remote calls issued by the handler. -/
structure ResourceOpResult where
  diagnostics : List Diagnostic
  newState : Option ExampleResourceModel
  remoteCalls : Nat
deriving DecidableEq, Repr

/-- Mirrors `NamespaceResource.Create` (namespace_resource.go lines
122-150).  The plan is parsed (`req.Plan.Get`, modelled as an `Except`
carrying parse diagnostics); on success the handler hardcodes
`data.Id = types.StringValue("example-id")` and writes `data` back.  The
HTTP client call is commented out in the source, so no remote call is
issued. -/
def NamespaceResource.create
    (plan : Except (List Diagnostic) ExampleResourceModel) : ResourceOpResult :=
  match plan with
  | .error diags => { diagnostics := diags, newState := none, remoteCalls := 0 }
  | .ok data =>
      let data := { data with id := TFString.value "example-id" }
      { diagnostics := [], newState := some data, remoteCalls := 0 }

/-- Mirrors `NamespaceResource.Read` (namespace_resource.go lines 152-172).
The prior state is parsed and then written back unchanged; the remote read
is commented out in the source, so no remote call is issued. -/
def NamespaceResource.read
    (priorState : Except (List Diagnostic) ExampleResourceModel) : ResourceOpResult :=
  match priorState with
  | .error diags => { diagnostics := diags, newState := none, remoteCalls := 0 }
  | .ok data => { diagnostics := [], newState := some data, remoteCalls := 0 }

/-- Mirrors `NamespaceResource.Update` (namespace_resource.go lines
174-194).  The plan is parsed and written back to the state unchanged; the
remote update call is commented out in the source, so no remote call is
issued and no remote error can arise. -/
def NamespaceResource.update
    (plan : Except (List Diagnostic) ExampleResourceModel) : ResourceOpResult :=
  match plan with
  | .error diags => { diagnostics := diags, newState := none, remoteCalls := 0 }
  | .ok data => { diagnostics := [], newState := some data, remoteCalls := 0 }

/-- Result of the Delete handler: diagnostics appended and remote calls
issued (the framework removes the state itself when Delete returns without
error diagnostics). -/
structure DeleteResult where
  diagnostics : List Diagnostic
  remoteCalls : Nat
deriving DecidableEq, Repr

/-- Mirrors `NamespaceResource.Delete` (namespace_resource.go lines
196-213).  The prior state is parsed and then the handler returns; the
remote delete call is commented out in the source, so no remote call is
issued.  `remotePresent` models which namespace ids exist on the remote
control plane; the handler never consults it, so the outcome is independent
of the remote state. -/
def NamespaceResource.delete (remotePresent : String → Bool)
    (priorState : Except (List Diagnostic) ExampleResourceModel) : DeleteResult :=
  match priorState with
  | .error diags => { diagnostics := diags, remoteCalls := 0 }
  | .ok _ => { diagnostics := [], remoteCalls := 0 }

/-- Result of ImportState: diagnostics, the attribute/value pairs written
into the imported state, and remote calls issued. -/
structure ImportResult where
  diagnostics : List Diagnostic
  stateAttrs : List (String × String)
  remoteCalls : Nat
deriving DecidableEq, Repr

/-- Mirrors `NamespaceResource.ImportState` (namespace_resource.go lines
215-217): `resource.ImportStatePassthroughID` copies the request id into
the state attribute at `path.Root("id")` and nothing else happens — no
remote read, no diagnostics. -/
def NamespaceResource.importState (reqID : String) : ImportResult :=
  { diagnostics := [], stateAttrs := [("id", reqID)], remoteCalls := 0 }

/-- The dynamic value handed to resources through `resp.ResourceData` /
`req.ProviderData`.  The resource Configure type-asserts it to
`*http.Client`; the provider actually stores a `*grpc.ClientConn`, and any
other type is possible in principle, so the embedding keeps all three
shapes (handles are abstract identities). -/
inductive ProviderData where
  | httpClient (handle : Nat)
  | grpcClientConn (handle : Nat)
  | other (tname : String)
deriving DecidableEq, Repr

/-- The Go `%T` type name of a `ProviderData` value, used in the
Configure error message. -/
def ProviderData.goTypeName : ProviderData → String
  | .httpClient _ => "*http.Client"
  | .grpcClientConn _ => "*grpc.ClientConn"
  | .other t => t

/-- Whether the `req.ProviderData.(*http.Client)` type assertion succeeds. -/
def ProviderData.isHttpClient : ProviderData → Bool
  | .httpClient _ => true
  | _ => false

/-- Result of `NamespaceResource.Configure`: diagnostics appended and the
client handle stored into `r.client` (`none` when it was left unset). -/
structure ResourceConfigureResult where
  diagnostics : List Diagnostic
  client : Option Nat
deriving DecidableEq, Repr

/-- Mirrors `NamespaceResource.Configure` (namespace_resource.go lines
102-120): nil provider data returns silently; a value that is not an
`*http.Client` appends one error diagnostic and returns; otherwise the
client is stored. -/
def NamespaceResource.configure (providerData : Option ProviderData) :
    ResourceConfigureResult :=
  match providerData with
  | none => { diagnostics := [], client := none }
  | some (.httpClient h) => { diagnostics := [], client := some h }
  | some d =>
      { diagnostics := [Diagnostic.error "Unexpected Resource Configure Type"
          ("Expected *http.Client, got: " ++ d.goTypeName ++ ". Please report this issue to the provider developers.")],
        client := none }

/-- The attribute types occurring in the namespace resource schema. -/
inductive AttrType where
  | string
  | bool
  | number
  | listString
deriving DecidableEq, Repr

/-- One attribute of the declared schema with its flags as set in the
source (`Required`, `Optional`, `Computed`; a flag absent in the source is
false). -/
structure SchemaAttribute where
  name : String
  attrType : AttrType
  required : Bool
  optional : Bool
  computed : Bool
deriving DecidableEq, Repr

/-- Mirrors `NamespaceResource.Schema` (namespace_resource.go lines
40-100), attributes in source declaration order. -/
def namespaceSchema : List SchemaAttribute :=
  [ { name := "name", attrType := .string, required := true, optional := false, computed := false },
    { name := "id", attrType := .string, required := false, optional := false, computed := true },
    { name := "description", attrType := .string, required := false, optional := true, computed := true },
    { name := "owner_email", attrType := .string, required := false, optional := true, computed := true },
    { name := "state", attrType := .string, required := false, optional := false, computed := true },
    { name := "active_cluster_name", attrType := .string, required := false, optional := false, computed := true },
    { name := "clusters", attrType := .listString, required := false, optional := false, computed := true },
    { name := "history_archival_state", attrType := .string, required := false, optional := false, computed := true },
    { name := "visibility_archival_state", attrType := .string, required := false, optional := false, computed := true },
    { name := "is_global_namespace", attrType := .bool, required := false, optional := false, computed := true },
    { name := "failover_version", attrType := .number, required := false, optional := false, computed := true },
    { name := "failover_history", attrType := .listString, required := false, optional := false, computed := true } ]

/-- C1: the claim says Create issues exactly one remote Create call and the
resulting state carries a remote-assigned id (never fabricated locally)
with state Registered and the input name preserved.  The source stub issues
zero remote calls and fabricates the local constant id `example-id`; its
model has no name or state field at all. -/
theorem create_stub_fabricates_local_id :
    NamespaceResource.create (Except.ok ⟨TFString.null, TFString.null, TFString.unknown⟩) =
      { diagnostics := [],
        newState := some ⟨TFString.null, TFString.null, TFString.value "example-id"⟩,
        remoteCalls := 0 } := rfl

/-- C3: the claim says Import performs a remote Read populating all
computed fields and reports ImportNotFound when the remote resource is
absent.  The source ImportState only passes the id through into the state
(creating it) with zero remote calls and no diagnostics, and the Read that
should populate the fields afterwards returns the stored state unchanged
with zero remote calls — so an absent remote resource is never detected. -/
theorem import_passthrough_no_remote_read :
    NamespaceResource.importState "ns-123" =
      { diagnostics := [], stateAttrs := [("id", "ns-123")], remoteCalls := 0 } ∧
    NamespaceResource.read (Except.ok ⟨TFString.null, TFString.null, TFString.value "ns-123"⟩) =
      { diagnostics := [],
        newState := some ⟨TFString.null, TFString.null, TFString.value "ns-123"⟩,
        remoteCalls := 0 } := ⟨rfl, rfl⟩

/-- C4: the claim says an Update failing with a non-transient RemoteError
leaves the state unchanged.  The source Update issues zero remote calls, so
its RemoteError failure path does not exist; it unconditionally overwrites
the state with the plan data, evaluated here at a concrete invocation. -/
theorem update_stub_issues_no_remote_call :
    NamespaceResource.update
        (Except.ok ⟨TFString.value "new-config", TFString.null, TFString.value "ns-1"⟩) =
      { diagnostics := [],
        newState := some ⟨TFString.value "new-config", TFString.null, TFString.value "ns-1"⟩,
        remoteCalls := 0 } := rfl

/-- C5: the claim says computed fields of the post-Update state come solely
from the authoritative remote response.  The source Update makes no remote
call, so no remote response exists, and the computed `id` field written to
the state is copied verbatim from the plan (which the framework seeds from
the prior local state). -/
theorem update_stub_sources_computed_id_from_plan :
    (NamespaceResource.update
        (Except.ok ⟨TFString.value "cfg", TFString.value "dflt",
          TFString.value "id-from-prior-state"⟩)).newState =
      some ⟨TFString.value "cfg", TFString.value "dflt",
        TFString.value "id-from-prior-state"⟩ ∧
    (NamespaceResource.update
        (Except.ok ⟨TFString.value "cfg", TFString.value "dflt",
          TFString.value "id-from-prior-state"⟩)).remoteCalls = 0 := ⟨rfl, rfl⟩

/-- C6: Delete on an already-absent remote resource yields success (no
error diagnostics), not an error: the handler issues no remote call, so it
succeeds for every remote state, in particular whenever the namespace id is
absent remotely. -/
theorem delete_succeeds_when_remote_absent
    (remotePresent : String → Bool) (nsId : String) (data : ExampleResourceModel)
    (habs : remotePresent nsId = false) :
    (NamespaceResource.delete remotePresent (Except.ok data)).diagnostics = [] ∧
    (NamespaceResource.delete remotePresent (Except.ok data)).remoteCalls = 0 :=
  ⟨rfl, rfl⟩

theorem delete_succeeds_when_remote_absent_witness :
    (NamespaceResource.delete (fun _ => false)
        (Except.ok ⟨TFString.null, TFString.null, TFString.value "ns-123"⟩)).diagnostics = [] ∧
    (NamespaceResource.delete (fun _ => false)
        (Except.ok ⟨TFString.null, TFString.null, TFString.value "ns-123"⟩)).remoteCalls = 0 :=
  delete_succeeds_when_remote_absent (fun _ => false) "ns-123"
    ⟨TFString.null, TFString.null, TFString.value "ns-123"⟩ rfl

/-- C10: for every prior state that parses without error, Read writes the
same data back unchanged and issues no remote call. -/
theorem read_is_identity_no_remote (data : ExampleResourceModel) :
    NamespaceResource.read (Except.ok data) =
      { diagnostics := [], newState := some data, remoteCalls := 0 } := rfl

theorem read_is_identity_no_remote_witness :
    NamespaceResource.read
        (Except.ok ⟨TFString.value "a", TFString.value "b", TFString.value "c"⟩) =
      { diagnostics := [],
        newState := some ⟨TFString.value "a", TFString.value "b", TFString.value "c"⟩,
        remoteCalls := 0 } :=
  read_is_identity_no_remote ⟨TFString.value "a", TFString.value "b", TFString.value "c"⟩

/-- C2: with no unknown values, Configure resolves host and port by taking
the explicit configuration value when set (non-null) and the environment
variable otherwise; an empty resolved value yields the attribute-scoped
missing diagnostic for exactly that attribute, and any diagnostic makes
startup fail (no dial).  In particular config `(host:"", port:"7233")`
with empty environment yields exactly the one missing-host diagnostic. -/
theorem configure_resolves_host_port_and_flags_missing
    (env : Env) (config : temporalProviderModel)
    (hh : config.host.isUnknown = false) (hp : config.port.isUnknown = false) :
    (TemporalProvider.configure env config).resolvedHost =
      (if config.host.isNull then env.temporalHost else config.host.valueString) ∧
    (TemporalProvider.configure env config).resolvedPort =
      (if config.port.isNull then env.temporalPort else config.port.valueString) ∧
    (TemporalProvider.configure env config).diagnostics =
      ((if (TemporalProvider.configure env config).resolvedHost = ""
          then [missingHostDiag] else []) ++
        (if (TemporalProvider.configure env config).resolvedPort = ""
          then [missingPortDiag] else [])) ∧
    (TemporalProvider.configure env config).dialed =
      (TemporalProvider.configure env config).diagnostics.isEmpty ∧
    (TemporalProvider.configure ⟨"", ""⟩
        ⟨TFString.value "", TFString.value "7233"⟩).diagnostics = [missingHostDiag] := by
  refine ?_
  by_cases hH : (if config.host.isNull then env.temporalHost else config.host.valueString) = "" <;>
    by_cases hP : (if config.port.isNull then env.temporalPort else config.port.valueString) = "" <;>
      refine ⟨?_, ?_, ?_, ?_, rfl⟩ <;>
        simp [TemporalProvider.configure, hh, hp, hH, hP]

theorem configure_resolves_witness :
    (TemporalProvider.configure ⟨"env-host", "env-port"⟩
        ⟨TFString.value "cfg-host", TFString.null⟩).resolvedHost =
      (if (TFString.value "cfg-host").isNull then "env-host"
        else (TFString.value "cfg-host").valueString) ∧
    (TemporalProvider.configure ⟨"env-host", "env-port"⟩
        ⟨TFString.value "cfg-host", TFString.null⟩).resolvedPort =
      (if (TFString.null).isNull then "env-port" else (TFString.null).valueString) ∧
    (TemporalProvider.configure ⟨"env-host", "env-port"⟩
        ⟨TFString.value "cfg-host", TFString.null⟩).diagnostics =
      ((if (TemporalProvider.configure ⟨"env-host", "env-port"⟩
            ⟨TFString.value "cfg-host", TFString.null⟩).resolvedHost = ""
          then [missingHostDiag] else []) ++
        (if (TemporalProvider.configure ⟨"env-host", "env-port"⟩
            ⟨TFString.value "cfg-host", TFString.null⟩).resolvedPort = ""
          then [missingPortDiag] else [])) ∧
    (TemporalProvider.configure ⟨"env-host", "env-port"⟩
        ⟨TFString.value "cfg-host", TFString.null⟩).dialed =
      (TemporalProvider.configure ⟨"env-host", "env-port"⟩
        ⟨TFString.value "cfg-host", TFString.null⟩).diagnostics.isEmpty ∧
    (TemporalProvider.configure ⟨"", ""⟩
        ⟨TFString.value "", TFString.value "7233"⟩).diagnostics = [missingHostDiag] :=
  configure_resolves_host_port_and_flags_missing ⟨"env-host", "env-port"⟩
    ⟨TFString.value "cfg-host", TFString.null⟩ rfl rfl

/-- C7: when host or port is an unknown (not-yet-resolved) value, Configure
appends the attribute-scoped unknown-value diagnostic for exactly each
unknown attribute and returns before any client is created (no dial). -/
theorem configure_unknown_defers
    (env : Env) (config : temporalProviderModel)
    (h : (config.host.isUnknown || config.port.isUnknown) = true) :
    (TemporalProvider.configure env config).dialed = false ∧
    (TemporalProvider.configure env config).diagnostics =
      (if config.host.isUnknown then [unknownHostDiag] else []) ++
        (if config.port.isUnknown then [unknownPortDiag] else []) := by
  rcases config with ⟨chost, cport⟩
  cases chost <;> cases cport <;>
    simp_all [TemporalProvider.configure, TFString.isUnknown]

theorem configure_unknown_defers_witness :
    (TemporalProvider.configure ⟨"env-host", "env-port"⟩
        ⟨TFString.unknown, TFString.unknown⟩).dialed = false ∧
    (TemporalProvider.configure ⟨"env-host", "env-port"⟩
        ⟨TFString.unknown, TFString.unknown⟩).diagnostics =
      [unknownHostDiag] ++ [unknownPortDiag] :=
  configure_unknown_defers ⟨"env-host", "env-port"⟩
    ⟨TFString.unknown, TFString.unknown⟩ rfl

/-- C8: the declared schema has exactly the twelve attributes below, with
`name` the required string input, `description` and `owner_email` optional
(non-required) string inputs, and the remaining nine computed-only
(computed, neither optional nor required) with the stated types. -/
theorem namespace_schema_contract :
    namespaceSchema.map SchemaAttribute.name =
      ["name", "id", "description", "owner_email", "state", "active_cluster_name",
        "clusters", "history_archival_state", "visibility_archival_state",
        "is_global_namespace", "failover_version", "failover_history"] ∧
    (∀ a ∈ namespaceSchema, a.name = "name" →
      a.required = true ∧ a.optional = false ∧ a.computed = false ∧
        a.attrType = AttrType.string) ∧
    (∀ a ∈ namespaceSchema, (a.name = "description" ∨ a.name = "owner_email") →
      a.required = false ∧ a.optional = true ∧ a.attrType = AttrType.string) ∧
    (∀ a ∈ namespaceSchema,
      (a.name = "id" ∨ a.name = "state" ∨ a.name = "active_cluster_name" ∨
        a.name = "history_archival_state" ∨ a.name = "visibility_archival_state") →
      a.computed = true ∧ a.optional = false ∧ a.required = false ∧
        a.attrType = AttrType.string) ∧
    (∀ a ∈ namespaceSchema, (a.name = "clusters" ∨ a.name = "failover_history") →
      a.computed = true ∧ a.optional = false ∧ a.required = false ∧
        a.attrType = AttrType.listString) ∧
    (∀ a ∈ namespaceSchema, a.name = "is_global_namespace" →
      a.computed = true ∧ a.optional = false ∧ a.required = false ∧
        a.attrType = AttrType.bool) ∧
    (∀ a ∈ namespaceSchema, a.name = "failover_version" →
      a.computed = true ∧ a.optional = false ∧ a.required = false ∧
        a.attrType = AttrType.number) := by
  refine ⟨rfl, ?_, ?_, ?_, ?_, ?_, ?_⟩ <;>
    · intro a ha
      fin_cases ha <;> simp

/-- C9: Configure on the resource with nil provider data returns without
diagnostics and leaves the client unset; provider data of any type other
than an HTTP client appends exactly one error diagnostic and leaves the
client unset. -/
theorem resource_configure_nil_and_wrong_type
    (d : ProviderData) (h : d.isHttpClient = false) :
    NamespaceResource.configure none =
      { diagnostics := [], client := none } ∧
    (NamespaceResource.configure (some d)).client = none ∧
    (NamespaceResource.configure (some d)).diagnostics =
      [Diagnostic.error "Unexpected Resource Configure Type"
        ("Expected *http.Client, got: " ++ d.goTypeName ++
          ". Please report this issue to the provider developers.")] := by
  cases d <;> simp_all [NamespaceResource.configure, ProviderData.isHttpClient,
    ProviderData.goTypeName]

theorem resource_configure_nil_and_wrong_type_witness :
    NamespaceResource.configure none =
      { diagnostics := [], client := none } ∧
    (NamespaceResource.configure (some (ProviderData.grpcClientConn 0))).client = none ∧
    (NamespaceResource.configure (some (ProviderData.grpcClientConn 0))).diagnostics =
      [Diagnostic.error "Unexpected Resource Configure Type"
        ("Expected *http.Client, got: " ++ (ProviderData.grpcClientConn 0).goTypeName ++
          ". Please report this issue to the provider developers.")] :=
  resource_configure_nil_and_wrong_type (ProviderData.grpcClientConn 0) rfl
